import Mathlib

/-!
Shallow embedding of the `logging` package (src/logger.go): a leveled
logging facility with a Logger holding an optional stream handler and an
optional file handler, per-level ANSI color tables, and a dispatch
pipeline gated by levels and optional filters.

Go integers (`int`, `MessageLevel`) are modelled as `Int`; nil-able
pointers as `Option`; Go map lookup (which yields the zero value on a
missing key) as a total function with a `""` default; Go slice indexing
(which fails on an out-of-range index) as an `Option`-returning lookup.
Side effects of a `log` call are captured as the pair of the updated
`Logger` and the list of write events, in the order they are performed.

Types and functions of the repository that are referenced by
src/logger.go but whose defining files are not under src/
(`MessageRecord`/`GetMessageRecord`, `MessageFormatter.GetMessage`,
`MessageFilter`, the two handler types and their `Write`) are modelled
from the spec, as marked in their doc comments; ambient effects
(call-site capture, wall-clock time, filter predicates, write results)
are supplied by an explicit environment `Env`.
-/

/-- `type MessageLevel int` (src/logger.go). -/
abbrev MessageLevel := Int

/-- Color constant block of src/logger.go: `_ = iota + 30` (black = 30). -/
def ColorRed : MessageLevel := 31

def ColorGreen : MessageLevel := 32

def ColorYellow : MessageLevel := 33

def ColorBlue : MessageLevel := 34

def ColorMagenta : MessageLevel := 35

/-- `const LevelColorSeqClear = "\033[0m"`. -/
def LevelColorSeqClear : String := "\x1b[0m"

/-- MessageLevel constants: `NOTSET = iota`, `DEBUG = MessageLevel(10*iota)`, ... -/
def NOTSET : MessageLevel := 0

def DEBUG : MessageLevel := 10

def INFO : MessageLevel := 20

def WARNING : MessageLevel := 30

def ERROR : MessageLevel := 40

def CRITICAL : MessageLevel := 50

/-- `levelColorSeq(l MessageLevel, way int)`: `fmt.Sprintf("\033[%d;%dm", way, MessageLevel(l))`. -/
def levelColorSeq (l : MessageLevel) (way : Int) : String :=
  "\x1b[" ++ toString way ++ ";" ++ toString l ++ "m"

/-- `var LevelColorFlag = []string{DEBUG: ..., INFO: ..., ...}`: a Go slice
literal with sparse indices; its length is the highest index plus one
(`CRITICAL + 1 = 51`) and unlisted indices hold the zero value `""`. -/
def LevelColorFlag : List String :=
  (List.range 51).map (fun i =>
    if i = 10 then levelColorSeq ColorBlue 0
    else if i = 20 then levelColorSeq ColorGreen 0
    else if i = 30 then levelColorSeq ColorYellow 0
    else if i = 40 then levelColorSeq ColorRed 1
    else if i = 50 then levelColorSeq ColorMagenta 1
    else "")

/-- Indexing the `LevelColorFlag` slice with a `MessageLevel`, as Go does:
an index that is negative or not below the slice length is a failure
(out-of-range), modelled as `none`; otherwise the held string. -/
def levelColorFlagIndex (l : MessageLevel) : Option String :=
  if l < 0 then none else LevelColorFlag.get? l.toNat

/-- `var LevelString = map[MessageLevel]string{...}`: a Go map; lookup of a
missing key yields the zero value `""`, so the lookup is total. -/
def LevelString (l : MessageLevel) : String :=
  if l = 10 then "DEBUG"
  else if l = 20 then "INFO"
  else if l = 30 then "WARNING"
  else if l = 40 then "ERROR"
  else if l = 50 then "CRITICAL"
  else ""

/-- An output destination owned by a handler: `os.Stdout` or another sink. -/
inductive Destination where
  | stdout : Destination
  | stderr : Destination
  | fileDest : String → Destination
deriving DecidableEq

/-- Modelled from the spec: `MessageRecord` is defined in a repository file
not under src/; per the spec it is an immutable snapshot of one log event:
level, rendered message text, function name, short source-file name, source
line number, wall-clock timestamp. -/
structure MessageRecord where
  level : MessageLevel
  message : String
  funcName : String
  shortFileName : String
  line : Nat
  time : String
deriving DecidableEq

/-- `MessageFormatter` as configured in src/logger.go (GetDefaultLogger):
a template string plus a time-display pattern. -/
structure MessageFormatter where
  Format : String
  TimeFormat : String
deriving DecidableEq

/-- A `MessageFilter` in Go is a predicate taking the `*Logger`; it is
modelled as an abstract identifier interpreted by the environment, so that
a `Logger` (which holds filters) needs no function of itself as a field. -/
abbrev FilterId := Nat

/-- Modelled from the spec: `StreamMessageHandler` is defined in a
repository file not under src/; per the spec a handler owns one
destination, a minimum level, an optional Formatter and an optional
Filter. The fields used by src/logger.go are `Level`, `Filter`,
`Formatter`, `Destination` and the method `Write`. -/
structure StreamMessageHandler where
  Level : MessageLevel
  Formatter : Option MessageFormatter
  Filter : Option FilterId
  Destination : Destination
deriving DecidableEq

/-- Modelled from the spec: `FileMessageHandler`, the file-backed variant,
with the same fields used by src/logger.go. -/
structure FileMessageHandler where
  Level : MessageLevel
  Formatter : Option MessageFormatter
  Filter : Option FilterId
  Destination : Destination
deriving DecidableEq

/-- `type Logger struct` (src/logger.go): level, optional filter, the
transient record pointer, and the two optional handlers. -/
structure Logger where
  Level : MessageLevel
  Filter : Option FilterId
  Record : Option MessageRecord
  StreamHandler : Option StreamMessageHandler
  FileHandler : Option FileMessageHandler
deriving DecidableEq

/-- The ambient environment of one dispatch: the interpretation of filter
identifiers (Go filters are arbitrary predicates over the `*Logger`), the
rendering function of a non-nil formatter (`MessageFormatter.GetMessage`
is in a repository file not under src/), the record builder
(`GetMessageRecord`, also not under src/, which captures call-site data
and the current time), and the success or failure each handler's write
would report. -/
structure Env where
  filterEval : FilterId → Logger → Bool
  render : MessageFormatter → Logger → String
  mkRecord : MessageLevel → String → List String → MessageRecord
  streamWriteOk : Bool
  fileWriteOk : Bool

/-- One write side effect: which handler wrote, to which destination,
which bytes. -/
inductive WriteEvent where
  | stream : Destination → String → WriteEvent
  | file : Destination → String → WriteEvent
deriving DecidableEq

/-- Whether a write event is a stream-handler write. -/
def WriteEvent.isStreamEvent : WriteEvent → Bool
  | .stream _ _ => true
  | .file _ _ => false

/-- Whether a write event is a file-handler write. -/
def WriteEvent.isFileEvent : WriteEvent → Bool
  | .stream _ _ => false
  | .file _ _ => true

/-- Stream-handler writes in a trace. -/
def hasStreamWrite (t : List WriteEvent) : Bool :=
  t.any WriteEvent.isStreamEvent

/-- File-handler writes in a trace. -/
def hasFileWrite (t : List WriteEvent) : Bool :=
  t.any WriteEvent.isFileEvent

/-- The Go condition `f == nil || (f != nil && f(l))` used for the Logger
filter and for each handler filter in `Logger.log`: a nil filter passes,
a present filter is evaluated on the Logger. -/
def filterPass (env : Env) (f : Option FilterId) (l : Logger) : Bool :=
  match f with
  | none => true
  | some fid => env.filterEval fid l

/-- Modelled from the spec: rendering via a handler's
`Formatter.GetMessage(l)` whose defining file is not under src/; per the
spec an absent (nil) Formatter is treated as a no-op (empty rendering),
never as an error, and a present Formatter renders the Logger's current
Record deterministically. -/
def getMessage (env : Env) (f : Option MessageFormatter) (l : Logger) : String :=
  match f with
  | none => ""
  | some fmtr => env.render fmtr l

/-- Modelled from the spec: `StreamMessageHandler.Write` (not under src/)
performs a direct write of the bytes to the owned destination and reports
any write failure to its caller; the event performed and the reported
result. -/
def StreamMessageHandler.Write (h : StreamMessageHandler) (env : Env) (b : String) :
    WriteEvent × Bool :=
  (WriteEvent.stream h.Destination b, env.streamWriteOk)

/-- Modelled from the spec: `FileMessageHandler.Write` (not under src/),
the file-backed variant of `Write`. -/
def FileMessageHandler.Write (h : FileMessageHandler) (env : Env) (b : String) :
    WriteEvent × Bool :=
  (WriteEvent.file h.Destination b, env.fileWriteOk)

/-- The Logger after `l.Record = GetMessageRecord(level, format, a...)`:
every other field unchanged, the record freshly built. -/
def recordedLogger (env : Env) (l : Logger) (level : MessageLevel) (format : String)
    (a : List String) : Logger :=
  { l with Record := some (env.mkRecord level format a) }

/-- The stream-handler block of `Logger.log`:
`if l.StreamHandler != nil && level >= l.StreamHandler.Level { if <filter> { Write(GetMessage) } }`.
The `Bool` reported by `Write` is discarded, as in the source. -/
def streamDispatch (env : Env) (l : Logger) (level : MessageLevel) : List WriteEvent :=
  match l.StreamHandler with
  | none => []
  | some h =>
    if h.Level ≤ level then
      if filterPass env h.Filter l then
        [(h.Write env (getMessage env h.Formatter l)).1]
      else []
    else []

/-- The file-handler block of `Logger.log`, same shape as the stream block. -/
def fileDispatch (env : Env) (l : Logger) (level : MessageLevel) : List WriteEvent :=
  match l.FileHandler with
  | none => []
  | some h =>
    if h.Level ≤ level then
      if filterPass env h.Filter l then
        [(h.Write env (getMessage env h.Formatter l)).1]
      else []
    else []

/-- `func (l *Logger) log(level MessageLevel, format string, a ...interface)`
(src/logger.go lines 88-110): if `level >= l.Level`, build the Record,
check the Logger filter, then run the stream block and the file block in
that order. Returns the updated Logger and the writes performed. -/
def Logger.log (l : Logger) (env : Env) (level : MessageLevel) (format : String)
    (a : List String) : Logger × List WriteEvent :=
  if l.Level ≤ level then
    if filterPass env l.Filter (recordedLogger env l level format a) then
      (recordedLogger env l level format a,
        streamDispatch env (recordedLogger env l level format a) level
          ++ fileDispatch env (recordedLogger env l level format a) level)
    else
      (recordedLogger env l level format a, [])
  else
    (l, [])

/-- Alias for the rank `DEBUG`: inside `Logger.DEBUG` the bare name would
resolve to the method being defined, so the methods go through aliases. -/
def debugRank : MessageLevel := DEBUG

/-- Alias for the rank `INFO` (see `debugRank`). -/
def infoRank : MessageLevel := INFO

/-- Alias for the rank `WARNING` (see `debugRank`). -/
def warningRank : MessageLevel := WARNING

/-- Alias for the rank `ERROR` (see `debugRank`). -/
def errorRank : MessageLevel := ERROR

/-- Alias for the rank `CRITICAL` (see `debugRank`). -/
def criticalRank : MessageLevel := CRITICAL

/-- `func (l *Logger) DEBUG(format string, a ...interface)`: `l.log(DEBUG, format, a...)`. -/
def Logger.DEBUG (l : Logger) (env : Env) (format : String) (a : List String) :
    Logger × List WriteEvent :=
  l.log env debugRank format a

/-- `func (l *Logger) INFO(format string, a ...interface)`: `l.log(INFO, format, a...)`. -/
def Logger.INFO (l : Logger) (env : Env) (format : String) (a : List String) :
    Logger × List WriteEvent :=
  l.log env infoRank format a

/-- `func (l *Logger) WARNING(format string, a ...interface)`: `l.log(WARNING, format, a...)`. -/
def Logger.WARNING (l : Logger) (env : Env) (format : String) (a : List String) :
    Logger × List WriteEvent :=
  l.log env warningRank format a

/-- `func (l *Logger) ERROR(format string, a ...interface)`: `l.log(ERROR, format, a...)`. -/
def Logger.ERROR (l : Logger) (env : Env) (format : String) (a : List String) :
    Logger × List WriteEvent :=
  l.log env errorRank format a

/-- `func (l *Logger) CRITICAL(format string, a ...interface)`: `l.log(CRITICAL, format, a...)`. -/
def Logger.CRITICAL (l : Logger) (env : Env) (format : String) (a : List String) :
    Logger × List WriteEvent :=
  l.log env criticalRank format a

/-- `func GetDefaultLogger() *Logger` (src/logger.go lines 72-85). -/
def GetDefaultLogger : Logger :=
  { Level := DEBUG
    Filter := none
    Record := none
    StreamHandler := some
      { Level := DEBUG
        Formatter := some
          { Format := "\x7b\x7b.Color\x7d\x7d[\x7b\x7b.Time\x7d\x7d] \x7b\x7b.LevelString | printf \"%8s\"\x7d\x7d  \x7b\x7b.FuncName\x7d\x7d \x7b\x7b.ShortFileName\x7d\x7d \x7b\x7b.Line\x7d\x7d \x7b\x7b.ColorClear\x7d\x7d \x7b\x7b.Message\x7d\x7d"
            TimeFormat := "2006-01-02 15:04:05" }
        Filter := none
        Destination := Destination.stdout }
    FileHandler := none }

/-! ### Dispatch helper lemmas -/

/-- Splitting write detection over a concatenated trace. -/
theorem hasStreamWrite_append (s t : List WriteEvent) :
    hasStreamWrite (s ++ t) = (hasStreamWrite s || hasStreamWrite t) := by
  simp [hasStreamWrite]

/-- Splitting file-write detection over a concatenated trace. -/
theorem hasFileWrite_append (s t : List WriteEvent) :
    hasFileWrite (s ++ t) = (hasFileWrite s || hasFileWrite t) := by
  simp [hasFileWrite]

/-- A file-handler block never produces a stream write. -/
theorem hasStreamWrite_fileDispatch (env : Env) (l : Logger) (level : MessageLevel) :
    hasStreamWrite (fileDispatch env l level) = false := by
  unfold fileDispatch
  cases l.FileHandler with
  | none => rfl
  | some hh =>
    by_cases h1 : hh.Level ≤ level
    · by_cases h2 : filterPass env hh.Filter l = true
      · simp [h1, h2, hasStreamWrite, FileMessageHandler.Write, WriteEvent.isStreamEvent]
      · simp [h1, h2, hasStreamWrite]
    · simp [h1, hasStreamWrite]

/-- A stream-handler block never produces a file write. -/
theorem hasFileWrite_streamDispatch (env : Env) (l : Logger) (level : MessageLevel) :
    hasFileWrite (streamDispatch env l level) = false := by
  unfold streamDispatch
  cases l.StreamHandler with
  | none => rfl
  | some hh =>
    by_cases h1 : hh.Level ≤ level
    · by_cases h2 : filterPass env hh.Filter l = true
      · simp [h1, h2, hasFileWrite, StreamMessageHandler.Write, WriteEvent.isFileEvent]
      · simp [h1, h2, hasFileWrite]
    · simp [h1, hasFileWrite]

/-- The stream block writes exactly when its level gate and filter pass. -/
theorem hasStreamWrite_streamDispatch (env : Env) (l : Logger) (level : MessageLevel)
    (hh : StreamMessageHandler) (h : l.StreamHandler = some hh) :
    hasStreamWrite (streamDispatch env l level)
      = (decide (hh.Level ≤ level) && filterPass env hh.Filter l) := by
  unfold streamDispatch
  rw [h]
  by_cases h1 : hh.Level ≤ level
  · by_cases h2 : filterPass env hh.Filter l = true
    · simp [h1, h2, hasStreamWrite, StreamMessageHandler.Write, WriteEvent.isStreamEvent]
    · simp [h1, h2, hasStreamWrite]
  · simp [h1, hasStreamWrite]

/-- The file block writes exactly when its level gate and filter pass. -/
theorem hasFileWrite_fileDispatch (env : Env) (l : Logger) (level : MessageLevel)
    (hh : FileMessageHandler) (h : l.FileHandler = some hh) :
    hasFileWrite (fileDispatch env l level)
      = (decide (hh.Level ≤ level) && filterPass env hh.Filter l) := by
  unfold fileDispatch
  rw [h]
  by_cases h1 : hh.Level ≤ level
  · by_cases h2 : filterPass env hh.Filter l = true
    · simp [h1, h2, hasFileWrite, FileMessageHandler.Write, WriteEvent.isFileEvent]
    · simp [h1, h2, hasFileWrite]
  · simp [h1, hasFileWrite]

/-- The stream block's write, when its gates pass. -/
theorem streamDispatch_eq_of_pass (env : Env) (l : Logger) (level : MessageLevel)
    (hh : StreamMessageHandler) (h : l.StreamHandler = some hh)
    (h1 : hh.Level ≤ level) (h2 : filterPass env hh.Filter l = true) :
    streamDispatch env l level
      = [WriteEvent.stream hh.Destination (getMessage env hh.Formatter l)] := by
  unfold streamDispatch
  rw [h]
  simp [h1, h2, StreamMessageHandler.Write]

/-- The file block's write, when its gates pass. -/
theorem fileDispatch_eq_of_pass (env : Env) (l : Logger) (level : MessageLevel)
    (hh : FileMessageHandler) (h : l.FileHandler = some hh)
    (h1 : hh.Level ≤ level) (h2 : filterPass env hh.Filter l = true) :
    fileDispatch env l level
      = [WriteEvent.file hh.Destination (getMessage env hh.Formatter l)] := by
  unfold fileDispatch
  rw [h]
  simp [h1, h2, FileMessageHandler.Write]

/-- The full trace when both global gates pass. -/
theorem log_trace_of_pass (env : Env) (l : Logger) (level : MessageLevel) (format : String)
    (a : List String) (h1 : l.Level ≤ level)
    (h2 : filterPass env l.Filter (recordedLogger env l level format a) = true) :
    (l.log env level format a).2
      = streamDispatch env (recordedLogger env l level format a) level
          ++ fileDispatch env (recordedLogger env l level format a) level := by
  unfold Logger.log
  rw [if_pos h1, if_pos h2]

/-- The stream write belongs to the trace when all its gates pass. -/
theorem stream_mem_log (env : Env) (l : Logger) (level : MessageLevel) (format : String)
    (a : List String) (hs : StreamMessageHandler) (hS : l.StreamHandler = some hs)
    (h1 : l.Level ≤ level)
    (h2 : filterPass env l.Filter (recordedLogger env l level format a) = true)
    (h3 : hs.Level ≤ level)
    (h4 : filterPass env hs.Filter (recordedLogger env l level format a) = true) :
    WriteEvent.stream hs.Destination
        (getMessage env hs.Formatter (recordedLogger env l level format a))
      ∈ (l.log env level format a).2 := by
  rw [log_trace_of_pass env l level format a h1 h2,
    streamDispatch_eq_of_pass env (recordedLogger env l level format a) level hs hS h3 h4]
  simp

/-- The file write belongs to the trace when all its gates pass. -/
theorem file_mem_log (env : Env) (l : Logger) (level : MessageLevel) (format : String)
    (a : List String) (hf : FileMessageHandler) (hF : l.FileHandler = some hf)
    (h1 : l.Level ≤ level)
    (h2 : filterPass env l.Filter (recordedLogger env l level format a) = true)
    (h3 : hf.Level ≤ level)
    (h4 : filterPass env hf.Filter (recordedLogger env l level format a) = true) :
    WriteEvent.file hf.Destination
        (getMessage env hf.Formatter (recordedLogger env l level format a))
      ∈ (l.log env level format a).2 := by
  rw [log_trace_of_pass env l level format a h1 h2,
    fileDispatch_eq_of_pass env (recordedLogger env l level format a) level hf hF h3 h4]
  simp

/-! ### Concrete fixtures used by witness theorems -/

/-- A concrete environment: filter identifier 0 allows, every other
identifier denies; a formatter renders its template string; records carry
a fixed call site and time. -/
def envW : Env :=
  { filterEval := fun fid _ => fid == 0
    render := fun f _ => f.Format
    mkRecord := fun lv f _ =>
      { level := lv, message := f, funcName := "main", shortFileName := "main.go",
        line := 42, time := "2026-10-11 00:00:00" }
    streamWriteOk := true
    fileWriteOk := true }

/-- A concrete stream handler at level DEBUG. -/
def streamW : StreamMessageHandler :=
  { Level := 10, Formatter := some { Format := "s", TimeFormat := "t" },
    Filter := none, Destination := Destination.stdout }

/-- A concrete file handler at level WARNING. -/
def fileW : FileMessageHandler :=
  { Level := 30, Formatter := some { Format := "f", TimeFormat := "t" },
    Filter := none, Destination := Destination.fileDest "a.log" }

/-- A concrete logger at level DEBUG with both handlers. -/
def loggerW : Logger :=
  { Level := 10, Filter := none, Record := none,
    StreamHandler := some streamW, FileHandler := some fileW }

/-- A stream handler with nil Formatter and nil Filter. -/
def streamNil : StreamMessageHandler :=
  { Level := 10, Formatter := none, Filter := none, Destination := Destination.stdout }

/-- A file handler with nil Formatter and nil Filter. -/
def fileNil : FileMessageHandler :=
  { Level := 10, Formatter := none, Filter := none,
    Destination := Destination.fileDest "b.log" }

/-- A logger whose optional components are all nil. -/
def loggerNil : Logger :=
  { Level := 10, Filter := none, Record := none,
    StreamHandler := some streamNil, FileHandler := some fileNil }

/-! ### Claims -/

/-- C1: a handler formats and writes the message if and only if all four
gates pass — `level ≥ Logger.Level`, `level ≥ Handler.Level`, the
Logger-level filter (nil passes) and that handler's own filter (nil
passes), both evaluated on the Logger carrying the freshly built Record;
hence a false Logger-level filter suppresses both handlers and a false
handler-level filter suppresses only its own handler. -/
theorem c1_four_gates (env : Env) (l : Logger) (level : MessageLevel) (format : String)
    (a : List String) :
    (∀ hs : StreamMessageHandler, l.StreamHandler = some hs →
      (hasStreamWrite (l.log env level format a).2 = true ↔
        (l.Level ≤ level ∧ hs.Level ≤ level ∧
          filterPass env l.Filter (recordedLogger env l level format a) = true ∧
          filterPass env hs.Filter (recordedLogger env l level format a) = true))) ∧
    (∀ hf : FileMessageHandler, l.FileHandler = some hf →
      (hasFileWrite (l.log env level format a).2 = true ↔
        (l.Level ≤ level ∧ hf.Level ≤ level ∧
          filterPass env l.Filter (recordedLogger env l level format a) = true ∧
          filterPass env hf.Filter (recordedLogger env l level format a) = true))) := by
  constructor
  · intro hs hS
    have hS2 : (recordedLogger env l level format a).StreamHandler = some hs := hS
    by_cases h1 : l.Level ≤ level
    · by_cases h2 : filterPass env l.Filter (recordedLogger env l level format a) = true
      · rw [log_trace_of_pass env l level format a h1 h2, hasStreamWrite_append,
          hasStreamWrite_streamDispatch env (recordedLogger env l level format a) level hs hS2,
          hasStreamWrite_fileDispatch]
        simp [h1, h2]
      · unfold Logger.log
        rw [if_pos h1, if_neg h2]
        simp [hasStreamWrite, h2]
    · unfold Logger.log
      rw [if_neg h1]
      simp [hasStreamWrite, h1]
  · intro hf hF
    have hF2 : (recordedLogger env l level format a).FileHandler = some hf := hF
    by_cases h1 : l.Level ≤ level
    · by_cases h2 : filterPass env l.Filter (recordedLogger env l level format a) = true
      · rw [log_trace_of_pass env l level format a h1 h2, hasFileWrite_append,
          hasFileWrite_fileDispatch env (recordedLogger env l level format a) level hf hF2,
          hasFileWrite_streamDispatch]
        simp [h1, h2]
      · unfold Logger.log
        rw [if_pos h1, if_neg h2]
        simp [hasFileWrite, h2]
    · unfold Logger.log
      rw [if_neg h1]
      simp [hasFileWrite, h1]

/-- Witness for C1: in the concrete fixture at level INFO, the stream
handler (level DEBUG, all filters nil) does write. -/
theorem c1_four_gates_witness :
    hasStreamWrite ((loggerW.log envW 20 "m" []).2) = true :=
  ((c1_four_gates envW loggerW 20 "m" []).1 streamW rfl).mpr
    ⟨by decide, by decide, rfl, rfl⟩

/-- C2: a log call changes no Logger field other than `Record`; when the
level gate passes the Record is replaced by the freshly built one, and
when it fails the call returns the Logger unchanged with an empty trace
(no Record built, no handler invoked). -/
theorem c2_frame (env : Env) (l : Logger) (level : MessageLevel) (format : String)
    (a : List String) :
    ((l.log env level format a).1.Level = l.Level ∧
      (l.log env level format a).1.Filter = l.Filter ∧
      (l.log env level format a).1.StreamHandler = l.StreamHandler ∧
      (l.log env level format a).1.FileHandler = l.FileHandler) ∧
    (l.Level ≤ level →
      (l.log env level format a).1.Record = some (env.mkRecord level format a)) ∧
    (level < l.Level → l.log env level format a = (l, [])) := by
  unfold Logger.log
  by_cases h1 : l.Level ≤ level
  · by_cases h2 : filterPass env l.Filter (recordedLogger env l level format a) = true
    · rw [if_pos h1, if_pos h2]
      exact ⟨⟨rfl, rfl, rfl, rfl⟩, fun _ => rfl, fun h => absurd h (not_lt.mpr h1)⟩
    · rw [if_pos h1, if_neg h2]
      exact ⟨⟨rfl, rfl, rfl, rfl⟩, fun _ => rfl, fun h => absurd h (not_lt.mpr h1)⟩
  · rw [if_neg h1]
    exact ⟨⟨rfl, rfl, rfl, rfl⟩, fun h => absurd h h1, fun _ => rfl⟩

/-- Witness for C2: at level INFO the fixture logger gets the fresh
record; at level 5 (below its level 10) the call is the identity with an
empty trace. -/
theorem c2_frame_witness :
    (loggerW.log envW 20 "m" []).1.Record = some (envW.mkRecord 20 "m" []) ∧
    loggerW.log envW 5 "m" [] = (loggerW, []) :=
  ⟨(c2_frame envW loggerW 20 "m" []).2.1 (by decide),
    (c2_frame envW loggerW 5 "m" []).2.2 (by decide)⟩

/-- C3: a stream-write failure is invisible to the rest of the call — the
updated Logger and the full trace are identical whether the stream write
fails or succeeds, the eligible file handler still receives its write of
the same Record when the stream write fails, and the five severity-named
operations are plain forwards to `log`, whose result carries no error
component to propagate. -/
theorem c3_write_failure_isolated (env : Env) (l : Logger) (level : MessageLevel)
    (format : String) (a : List String) :
    (l.log { env with streamWriteOk := false } level format a
        = l.log { env with streamWriteOk := true } level format a) ∧
    (∀ hf : FileMessageHandler, l.FileHandler = some hf → l.Level ≤ level →
      filterPass env l.Filter (recordedLogger env l level format a) = true →
      hf.Level ≤ level →
      filterPass env hf.Filter (recordedLogger env l level format a) = true →
      WriteEvent.file hf.Destination
          (getMessage env hf.Formatter (recordedLogger env l level format a))
        ∈ (l.log { env with streamWriteOk := false } level format a).2) ∧
    (∀ l2 : Logger, l2.DEBUG env format a = l2.log env DEBUG format a) ∧
    (∀ l2 : Logger, l2.INFO env format a = l2.log env INFO format a) ∧
    (∀ l2 : Logger, l2.WARNING env format a = l2.log env WARNING format a) ∧
    (∀ l2 : Logger, l2.ERROR env format a = l2.log env ERROR format a) ∧
    (∀ l2 : Logger, l2.CRITICAL env format a = l2.log env CRITICAL format a) := by
  refine ⟨rfl, ?_, fun _ => rfl, fun _ => rfl, fun _ => rfl, fun _ => rfl, fun _ => rfl⟩
  intro hf hF h1 h2 h3 h4
  exact file_mem_log { env with streamWriteOk := false } l level format a hf hF h1 h2 h3 h4

/-- Witness for C3: in the fixture at level ERROR with the stream write
failing, the file handler's write is still in the trace. -/
theorem c3_write_failure_isolated_witness :
    WriteEvent.file (Destination.fileDest "a.log")
        (getMessage envW fileW.Formatter (recordedLogger envW loggerW 40 "m" []))
      ∈ (loggerW.log { envW with streamWriteOk := false } 40 "m" []).2 :=
  (c3_write_failure_isolated envW loggerW 40 "m" []).2.1 fileW rfl
    (by decide) rfl (by decide) rfl

/-- C4: absent optional components never halt dispatch — a nil filter (at
Logger or handler level) passes, and a handler whose Formatter is nil
still gets its write performed, with an empty (no-op) rendering rather
than an error. -/
theorem c4_nil_components (env : Env) (l : Logger) (level : MessageLevel) (format : String)
    (a : List String) :
    (∀ l2 : Logger, filterPass env none l2 = true) ∧
    (∀ hs : StreamMessageHandler, l.StreamHandler = some hs → hs.Formatter = none →
      hs.Filter = none → l.Filter = none → l.Level ≤ level → hs.Level ≤ level →
      WriteEvent.stream hs.Destination "" ∈ (l.log env level format a).2) ∧
    (∀ hf : FileMessageHandler, l.FileHandler = some hf → hf.Formatter = none →
      hf.Filter = none → l.Filter = none → l.Level ≤ level → hf.Level ≤ level →
      WriteEvent.file hf.Destination "" ∈ (l.log env level format a).2) := by
  refine ⟨fun _ => rfl, ?_, ?_⟩
  · intro hs hS hfm hfi hlf h1 h3
    have h2 : filterPass env l.Filter (recordedLogger env l level format a) = true := by
      rw [hlf]; rfl
    have h4 : filterPass env hs.Filter (recordedLogger env l level format a) = true := by
      rw [hfi]; rfl
    have := stream_mem_log env l level format a hs hS h1 h2 h3 h4
    rwa [hfm] at this
  · intro hf hF hfm hfi hlf h1 h3
    have h2 : filterPass env l.Filter (recordedLogger env l level format a) = true := by
      rw [hlf]; rfl
    have h4 : filterPass env hf.Filter (recordedLogger env l level format a) = true := by
      rw [hfi]; rfl
    have := file_mem_log env l level format a hf hF h1 h2 h3 h4
    rwa [hfm] at this

/-- Witness for C4: the all-nil fixture logger at level INFO writes the
empty rendering through both handlers. -/
theorem c4_nil_components_witness :
    WriteEvent.stream Destination.stdout "" ∈ (loggerNil.log envW 20 "m" []).2 ∧
    WriteEvent.file (Destination.fileDest "b.log") "" ∈ (loggerNil.log envW 20 "m" []).2 :=
  ⟨(c4_nil_components envW loggerNil 20 "m" []).2.1 streamNil rfl rfl rfl rfl
      (by decide) (by decide),
    (c4_nil_components envW loggerNil 20 "m" []).2.2 fileNil rfl rfl rfl rfl
      (by decide) (by decide)⟩

/-- C8: once the two global gates pass, the trace is the stream handler's
write followed by the file handler's write, each dropped exactly when its
own level gate or filter rejects, and each rendered via its own
Formatter. -/
theorem c8_dispatch_order (env : Env) (l : Logger) (level : MessageLevel) (format : String)
    (a : List String) (hs : StreamMessageHandler) (hf : FileMessageHandler)
    (hS : l.StreamHandler = some hs) (hF : l.FileHandler = some hf)
    (h1 : l.Level ≤ level)
    (h2 : filterPass env l.Filter (recordedLogger env l level format a) = true) :
    (l.log env level format a).2 =
      (if hs.Level ≤ level ∧
          filterPass env hs.Filter (recordedLogger env l level format a) = true
        then [WriteEvent.stream hs.Destination
          (getMessage env hs.Formatter (recordedLogger env l level format a))]
        else [])
      ++ (if hf.Level ≤ level ∧
          filterPass env hf.Filter (recordedLogger env l level format a) = true
        then [WriteEvent.file hf.Destination
          (getMessage env hf.Formatter (recordedLogger env l level format a))]
        else []) := by
  have hS2 : (recordedLogger env l level format a).StreamHandler = some hs := hS
  have hF2 : (recordedLogger env l level format a).FileHandler = some hf := hF
  rw [log_trace_of_pass env l level format a h1 h2]
  congr 1
  · unfold streamDispatch
    rw [hS2]
    by_cases h3 : hs.Level ≤ level
    · by_cases h4 : filterPass env hs.Filter (recordedLogger env l level format a) = true
      · simp [h3, h4, StreamMessageHandler.Write]
      · simp [h3, h4]
    · simp [h3]
  · unfold fileDispatch
    rw [hF2]
    by_cases h3 : hf.Level ≤ level
    · by_cases h4 : filterPass env hf.Filter (recordedLogger env l level format a) = true
      · simp [h3, h4, FileMessageHandler.Write]
      · simp [h3, h4]
    · simp [h3]

/-- Witness for C8: the fixture logger at level ERROR writes first to the
stream destination, then to the file destination. -/
theorem c8_dispatch_order_witness :
    (loggerW.log envW 40 "m" []).2 =
      [WriteEvent.stream Destination.stdout "s",
        WriteEvent.file (Destination.fileDest "a.log") "f"] :=
  (c8_dispatch_order envW loggerW 40 "m" [] streamW fileW rfl rfl (by decide) rfl).trans
    (by decide)

/-- C10: the Logger holds at most the one stream handler and the one file
handler of its two fixed fields, so a single log call performs at most one
stream write, at most one file write, and at most two writes in total. -/
theorem c10_at_most_two_writes (env : Env) (l : Logger) (level : MessageLevel)
    (format : String) (a : List String) :
    (l.log env level format a).2.countP WriteEvent.isStreamEvent ≤ 1 ∧
    (l.log env level format a).2.countP WriteEvent.isFileEvent ≤ 1 ∧
    (l.log env level format a).2.length ≤ 2 := by
  have hsd : ∀ l2 : Logger, (streamDispatch env l2 level).length ≤ 1 := by
    intro l2
    unfold streamDispatch
    cases l2.StreamHandler with
    | none => simp
    | some hh =>
      by_cases h1 : hh.Level ≤ level
      · by_cases h2 : filterPass env hh.Filter l2 = true
        · simp [h1, h2]
        · simp [h1, h2]
      · simp [h1]
  have hfd : ∀ l2 : Logger, (fileDispatch env l2 level).length ≤ 1 := by
    intro l2
    unfold fileDispatch
    cases l2.FileHandler with
    | none => simp
    | some hh =>
      by_cases h1 : hh.Level ≤ level
      · by_cases h2 : filterPass env hh.Filter l2 = true
        · simp [h1, h2]
        · simp [h1, h2]
      · simp [h1]
  unfold Logger.log
  by_cases h1 : l.Level ≤ level
  · by_cases h2 : filterPass env l.Filter (recordedLogger env l level format a) = true
    · rw [if_pos h1, if_pos h2]
      refine ⟨?_, ?_, ?_⟩
      · calc ((streamDispatch env (recordedLogger env l level format a) level
              ++ fileDispatch env (recordedLogger env l level format a) level) :
                List WriteEvent).countP WriteEvent.isStreamEvent
            ≤ (streamDispatch env (recordedLogger env l level format a) level).countP
                WriteEvent.isStreamEvent
              + (fileDispatch env (recordedLogger env l level format a) level).countP
                WriteEvent.isStreamEvent := by
              rw [List.countP_append]
          _ ≤ 1 + 0 := by
              refine Nat.add_le_add ?_ ?_
              · exact le_trans (List.countP_le_length _) (hsd _)
              · have := hasStreamWrite_fileDispatch env (recordedLogger env l level format a)
                  level
                rw [hasStreamWrite, List.any_eq_false] at this
                exact Nat.le_of_eq (List.countP_eq_zero.mpr this)
          _ ≤ 1 := by omega
      · calc ((streamDispatch env (recordedLogger env l level format a) level
              ++ fileDispatch env (recordedLogger env l level format a) level) :
                List WriteEvent).countP WriteEvent.isFileEvent
            ≤ (streamDispatch env (recordedLogger env l level format a) level).countP
                WriteEvent.isFileEvent
              + (fileDispatch env (recordedLogger env l level format a) level).countP
                WriteEvent.isFileEvent := by
              rw [List.countP_append]
          _ ≤ 0 + 1 := by
              refine Nat.add_le_add ?_ ?_
              · have := hasFileWrite_streamDispatch env (recordedLogger env l level format a)
                  level
                rw [hasFileWrite, List.any_eq_false] at this
                exact Nat.le_of_eq (List.countP_eq_zero.mpr this)
              · exact le_trans (List.countP_le_length _) (hfd _)
          _ ≤ 1 := by omega
      · rw [List.length_append]
        exact le_trans (Nat.add_le_add (hsd _) (hfd _)) (by omega)
    · rw [if_pos h1, if_neg h2]
      exact ⟨by simp, by simp, by simp⟩
  · rw [if_neg h1]
    exact ⟨by simp, by simp, by simp⟩

/-- C5: the default logger has minimum level DEBUG, no file handler, no
filter, and exactly one stream handler at level DEBUG targeting standard
console output whose template lists, in order: color start, timestamp,
the 8-character right-aligned level name, function name, short file name,
line number, color clear, then the message. -/
theorem c5_default_logger :
    GetDefaultLogger.Level = DEBUG ∧
    GetDefaultLogger.Filter = none ∧
    GetDefaultLogger.Record = none ∧
    GetDefaultLogger.FileHandler = none ∧
    GetDefaultLogger.StreamHandler = some
      { Level := DEBUG
        Formatter := some
          { Format := "\x7b\x7b.Color\x7d\x7d" ++ "[" ++ "\x7b\x7b.Time\x7d\x7d" ++ "] "
              ++ "\x7b\x7b.LevelString | printf \"%8s\"\x7d\x7d" ++ "  "
              ++ "\x7b\x7b.FuncName\x7d\x7d" ++ " " ++ "\x7b\x7b.ShortFileName\x7d\x7d"
              ++ " " ++ "\x7b\x7b.Line\x7d\x7d" ++ " " ++ "\x7b\x7b.ColorClear\x7d\x7d"
              ++ " " ++ "\x7b\x7b.Message\x7d\x7d"
            TimeFormat := "2006-01-02 15:04:05" }
        Filter := none
        Destination := Destination.stdout } :=
  ⟨rfl, rfl, rfl, rfl, by decide⟩

/-- C6: the severity ranks are exactly DEBUG = 10, INFO = 20,
WARNING = 30, ERROR = 40, CRITICAL = 50, strictly increasing with
severity, and the Logger's level gate is standard integer comparison of
the call's rank against the configured rank: the Record is rebuilt
exactly when `Logger.Level ≤ level` holds as an integer inequality. -/
theorem c6_severity_ranks :
    (NOTSET = 0 ∧ DEBUG = 10 ∧ INFO = 20 ∧ WARNING = 30 ∧ ERROR = 40 ∧ CRITICAL = 50) ∧
    (DEBUG < INFO ∧ INFO < WARNING ∧ WARNING < ERROR ∧ ERROR < CRITICAL) ∧
    (∀ (env : Env) (l : Logger) (level : MessageLevel) (format : String) (a : List String),
      (l.log env level format a).1.Record =
        if l.Level ≤ level then some (env.mkRecord level format a) else l.Record) := by
  refine ⟨⟨rfl, rfl, rfl, rfl, rfl, rfl⟩, ⟨by decide, by decide, by decide, by decide⟩, ?_⟩
  intro env l level format a
  unfold Logger.log
  by_cases h1 : l.Level ≤ level
  · by_cases h2 : filterPass env l.Filter (recordedLogger env l level format a) = true
    · rw [if_pos h1, if_pos h2, if_pos h1]; rfl
    · rw [if_pos h1, if_neg h2, if_pos h1]; rfl
  · rw [if_neg h1, if_neg h1]

/-- C7: each canonical level's color start sequence is
`ESC[<style>;<color>m` — blue 34 for DEBUG, green 32 for INFO, yellow 33
for WARNING, red 31 for ERROR, magenta 35 for CRITICAL — with style 1
(emphasized) for ERROR and CRITICAL and style 0 (normal) for the rest,
and the shared clear sequence is `ESC[0m`. -/
theorem c7_color_sequences :
    levelColorFlagIndex DEBUG = some "\x1b[0;34m" ∧
    levelColorFlagIndex INFO = some "\x1b[0;32m" ∧
    levelColorFlagIndex WARNING = some "\x1b[0;33m" ∧
    levelColorFlagIndex ERROR = some "\x1b[1;31m" ∧
    levelColorFlagIndex CRITICAL = some "\x1b[1;35m" ∧
    LevelColorSeqClear = "\x1b[0m" ∧
    levelColorSeq ColorBlue 0 = "\x1b[0;34m" ∧
    levelColorSeq ColorGreen 0 = "\x1b[0;32m" ∧
    levelColorSeq ColorYellow 0 = "\x1b[0;33m" ∧
    levelColorSeq ColorRed 1 = "\x1b[1;31m" ∧
    levelColorSeq ColorMagenta 1 = "\x1b[1;35m" := by
  decide

/-- C9 counterexample: `LevelColorFlag` is a 51-entry slice (indices 0
through CRITICAL = 50), so the lookup at the extension rank 60 — a legal
`MessageLevel` above the canonical five — fails (out of range) instead of
producing a fallback. -/
theorem c9_lookup_counterexample : levelColorFlagIndex 60 = none := by
  decide

/-- C9 (amended): `LevelString` lookup succeeds for every rank, with the
empty string as fallback off the canonical five; `LevelColorFlag` lookup
succeeds — with the empty-string fallback between the canonical five —
exactly for ranks from 0 to CRITICAL = 50, and fails (index out of the
slice's range) for ranks above 50 or below 0. -/
theorem c9_lookup_fallback (lv : MessageLevel) :
    (lv ≠ DEBUG → lv ≠ INFO → lv ≠ WARNING → lv ≠ ERROR → lv ≠ CRITICAL →
      LevelString lv = "") ∧
    (0 ≤ lv → lv ≤ CRITICAL → (levelColorFlagIndex lv).isSome = true) ∧
    (CRITICAL < lv → levelColorFlagIndex lv = none) ∧
    (lv < 0 → levelColorFlagIndex lv = none) := by
  have hlen : LevelColorFlag.length = 51 := by
    simp [LevelColorFlag]
  refine ⟨?_, ?_, ?_, ?_⟩
  · intro h1 h2 h3 h4 h5
    simp only [DEBUG] at h1
    simp only [INFO] at h2
    simp only [WARNING] at h3
    simp only [ERROR] at h4
    simp only [CRITICAL] at h5
    simp [LevelString, h1, h2, h3, h4, h5]
  · intro h1 h2
    unfold levelColorFlagIndex
    rw [if_neg (not_lt.mpr h1)]
    cases hg : LevelColorFlag.get? lv.toNat with
    | none =>
      rw [List.get?_eq_none, hlen] at hg
      have hle : lv.toNat ≤ 50 := Int.toNat_le.mpr h2
      exact absurd (Nat.le_trans hg hle) (by decide)
    | some s => rfl
  · intro h1
    have h0 : (0 : MessageLevel) ≤ lv :=
      le_of_lt (lt_of_le_of_lt (by decide : (0 : MessageLevel) ≤ CRITICAL) h1)
    unfold levelColorFlagIndex
    rw [if_neg (not_lt.mpr h0)]
    rw [List.get?_eq_none, hlen]
    have h51 : ((51 : Nat) : Int) ≤ lv := by
      have h' := Int.add_one_le_iff.mpr h1
      exact le_trans (le_of_eq (by decide)) h'
    exact (Int.le_toNat h0).mpr h51
  · intro h1
    unfold levelColorFlagIndex
    rw [if_pos h1]

/-- Witness for C9 (amended): rank 15 (between DEBUG and INFO) gets the
empty-string fallback from both tables, rank 60 and rank -1 fail the
slice lookup. -/
theorem c9_lookup_fallback_witness :
    LevelString 15 = "" ∧
    (levelColorFlagIndex 15).isSome = true ∧
    levelColorFlagIndex 60 = none ∧
    levelColorFlagIndex (-1) = none :=
  ⟨(c9_lookup_fallback 15).1 (by decide) (by decide) (by decide) (by decide) (by decide),
    (c9_lookup_fallback 15).2.1 (by decide) (by decide),
    (c9_lookup_fallback 60).2.2.1 (by decide),
    (c9_lookup_fallback (-1)).2.2.2 (by decide)⟩
